import Mathlib

/-!
Shallow embedding of the artifact-validation engine of
`src/api/python/provisioner/commands/validator/validator.py`
(cortx-prvsnr).  Python exceptions are modelled as an explicit error
type, `validate` calls return `Except PyError Unit`, and the filesystem
is an explicit environment value.
-/

namespace CortxValidator

/-- A filesystem path, as the sequence of its components.
`Path.__truediv__` (the `/` operator used as `path / sub_path`) is list
append for the relative keys that occur in the schemes. -/
abbrev FsPath := List String

/-- Rendering of a path inside error messages (`f-string` interpolation
of a `Path` value in the source). -/
def pathStr (p : FsPath) : String := String.intercalate "/" p

/-- What the filesystem holds at a path: nothing, a regular file, or a
directory.  `path.exists()` is "not missing", `path.is_file()` is
`file`, `path.is_dir()` is `dir`. -/
inductive FsEntry where
  | missing
  | file
  | dir
deriving DecidableEq, Repr

/-- Modelled from the spec: `provisioner.config.HashType` is not under
`src/`; §6 says digest algorithms are "at minimum MD5 and SHA-family
digests, selected by an explicit hash_type tag; default when
unspecified is MD5". -/
inductive HashType where
  | md5
  | sha1
  | sha256
  | sha512
deriving DecidableEq, Repr

/-- Modelled from the spec: `provisioner.config.ContentType` is not
under `src/`; §6 says content formats are "two structured-text
encodings (a YAML-like and a JSON-like format) dispatched by an
explicit content_type tag". -/
inductive ContentType where
  | yaml
  | json
deriving DecidableEq, Repr

/-- A generic structured value produced by a content parser: the Python
values that `load_yaml` / `load_json` return (strings, integers, lists,
string-keyed dictionaries, `None`). -/
inductive PyValue where
  | str (s : String)
  | int (n : Int)
  | list (xs : List PyValue)
  | dict (kvs : List (String × PyValue))
  | none
deriving Repr

/-- The Python exceptions that the validator code can raise or leak:
`ValidationError` (the repository's own failure value, constructed with
a `reason` string) and the built-in exception classes that appear in
the control flow. -/
inductive PyError where
  | validationError (reason : String)
  | typeError (msg : String)
  | valueError (msg : String)
  | attributeError (msg : String)
  | fileNotFoundError (msg : String)
  | isADirectoryError (msg : String)
deriving DecidableEq, Repr

/-- `type(v)` name as printed in the "Unexpected top-level content
type" message. -/
def pyTypeName : PyValue → String
  | .str _ => "str"
  | .int _ => "int"
  | .list _ => "list"
  | .dict _ => "dict"
  | .none => "NoneType"

/-- `str(v)`: the conversion applied by the `converter=str` attribute
converters.  On strings it is the identity; on an integer it is its
decimal rendering; container and `None` renderings start with a
non-digit character, exactly like Python's `repr`-style output, which
is all the downstream regex checks can observe. -/
def pyStr : PyValue → String
  | .str s => s
  | .int n => toString n
  | .list _ => "[...]"
  | .dict _ => "\x7b...\x7d"
  | .none => "None"

/-- The filesystem environment a validation run observes: what kind of
entry each path holds, the digest `hashlib` computes for the file at a
path under an algorithm, and the structured value (or parse failure)
the content loader produces for the file at a path under a content
type. -/
structure FileSystem where
  entry : FsPath → FsEntry
  digestOf : FsPath → HashType → List Nat
  parseContent : FsPath → ContentType → Except String PyValue

/-- Modelled from the spec: `utils.calc_hash` is not under `src/`.
Per §4.3 it "streams the file in fixed-size chunks and returns the
final digest", so it must open the file: on a missing path Python's
`open` raises `FileNotFoundError`, on a directory `IsADirectoryError`.
The digest bytes themselves are abstracted by `FileSystem.digestOf`. -/
def calc_hash (fs : FileSystem) (p : FsPath) (ht : HashType) :
    Except PyError (List Nat) :=
  match fs.entry p with
  | .missing =>
      .error (.fileNotFoundError
        ("No such file or directory: '" ++ pathStr p ++ "'"))
  | .dir =>
      .error (.isADirectoryError ("Is a directory: '" ++ pathStr p ++ "'"))
  | .file => .ok (fs.digestOf p ht)

/-- Modelled from the spec: `utils.load_yaml` / `utils.load_json` are
not under `src/`.  Per §2 a ContentParser "reads raw bytes from a path
and decodes them into a generic structured value (mapping/sequence)",
raising on malformed bytes; the outcome is abstracted by
`FileSystem.parseContent`. -/
def loadContent (fs : FileSystem) (p : FsPath) (ct : ContentType) :
    Except String PyValue :=
  fs.parseContent p ct

/-- Hex rendering of digest bytes, used only inside the hash-mismatch
message (`hexdigest()` / `bytes.hex()`). -/
def bytesHex (bs : List Nat) : String :=
  String.intercalate "" (bs.map (fun b => Nat.toDigits 16 b |> String.mk))

/-- The character class `[0-9]` of the two regexes in
`ReleaseInfoContentScheme`. -/
def isDigitChar (c : Char) : Bool := c.isDigit

/-- Greedy match of `[0-9]+` at the head of the input: the maximal
digit prefix and the rest.  Greedy matching is exact here because in
both regexes the character after a digit run is `.` or end of input,
never another digit. -/
def spanDigits (cs : List Char) : List Char × List Char :=
  (cs.takeWhile isDigitChar, cs.dropWhile isDigitChar)

/-- Match `[0-9]+` at the head of the input: `some rest` when a
nonempty digit run was consumed, `none` otherwise. -/
def matchDigitsPlus (cs : List Char) : Option (List Char) :=
  match spanDigits cs with
  | ([], _) => Option.none
  | (_ :: _, r) => some r

/-- Match the literal `\.` at the head of the input. -/
def stripDot : List Char → Option (List Char)
  | c :: r => if c = '.' then some r else Option.none
  | [] => Option.none

/-- Full-string match of the `VERSION` regex
`^[0-9]+\.[0-9]+\.[0-9]+$` from `ReleaseInfoContentScheme.VERSION`:
`[0-9]+`, `\.`, `[0-9]+`, `\.`, `[0-9]+`, end of input. -/
def versionFullmatch (cs : List Char) : Bool :=
  match ((((matchDigitsPlus cs).bind stripDot).bind
      matchDigitsPlus).bind stripDot).bind matchDigitsPlus with
  | some [] => true
  | _ => false

/-- Full-string match of the `BUILD` regex `^[0-9]+$` from
`ReleaseInfoContentScheme.BUILD`. -/
def buildFullmatch (cs : List Char) : Bool :=
  match matchDigitsPlus cs with
  | some [] => true
  | _ => false

/-- The scheme instance built by `ReleaseInfoContentScheme`: the six
declared attributes plus the `_unexpected_attributes` dictionary that
`from_args` attaches after construction. -/
structure ReleaseInfo where
  NAME : String
  VERSION : String
  BUILD : String
  OS : String
  COMPONENTS : List PyValue
  RELEASE : PyValue
  unexpectedAttrs : List (String × PyValue)

/-- The declared attribute names of `ReleaseInfoContentScheme`, in
definition order (`attr.fields_dict(cls)` keys). -/
def declaredFields : List String :=
  ["NAME", "VERSION", "BUILD", "OS", "COMPONENTS", "RELEASE"]

/-- `data[k]` lookup in a dictionary modelled as a key-value list (dict
keys are unique, so first match is the match). -/
def lookupKey (k : String) (kvs : List (String × PyValue)) : Option PyValue :=
  (kvs.find? (fun kv => kv.1 == k)).map Prod.snd

/-- Removal of key `k`, the effect of `data.pop(k)` on the dictionary. -/
def eraseKey (k : String) (kvs : List (String × PyValue)) :
    List (String × PyValue) :=
  kvs.filter (fun kv => kv.1 != k)

/-- `data.keys() - set(a for a in attr.fields_dict(cls))`: the keys of
`data` that are not declared scheme attributes.  Python iterates this
set in an unspecified order; the model fixes the dictionary's own key
order, which leaves the popped dictionary and the membership of the
collected pairs unchanged. -/
def undeclaredKeys (kvs : List (String × PyValue)) : List String :=
  (kvs.map Prod.fst).filter (fun k => !declaredFields.contains k)

/-- The pop loop of `FileContentScheme.from_args`: for each key in
`ks`, move `data[k]` out of `data` into the `unexpected_attrs`
dictionary.  Returns (collected pairs, remaining dictionary).  A key
absent from `data` is skipped (unreachable: the loop only receives
keys of `data`). -/
def popAll (ks : List String) (data : List (String × PyValue)) :
    List (String × PyValue) × List (String × PyValue) :=
  match ks with
  | [] => ([], data)
  | k :: ks' =>
    match lookupKey k data with
    | some v =>
      let r := popAll ks' (eraseKey k data)
      ((k, v) :: r.1, r.2)
    | Option.none => popAll ks' data

/-- Modelled from the spec: the vendored `attr` library
(`provisioner.vendor.attr`) is not under `src/`.  Its validators
behave as §9 describes ("field constructors with validators and
converters" whose checks raise at construction time):
`instance_of` raises `TypeError` when the value has the wrong type,
`matches_re` raises `ValueError` when the converted string does not
match the regex, and validators run in attribute-definition order, the
first violated constraint producing the failure (§4.2 step 4).
This function is the generated `__init__` body of
`ReleaseInfoContentScheme` applied to already-bound arguments:
converters (`str`) first, then the per-field validators in order
NAME, VERSION, BUILD, OS, COMPONENTS, RELEASE. -/
def releaseInfoInit (nm ver0 bld0 os comps : PyValue) (rel : Option PyValue) :
    Except PyError ReleaseInfo :=
  let ver := pyStr ver0
  let bld := pyStr bld0
  match nm with
  | .str nmS =>
    if versionFullmatch ver.data then
      if buildFullmatch bld.data then
        match os with
        | .str osS =>
          match comps with
          | .list cl =>
            match rel with
            | Option.none =>
              .ok ⟨nmS, ver, bld, osS, cl, PyValue.none, []⟩
            | some PyValue.none =>
              .ok ⟨nmS, ver, bld, osS, cl, PyValue.none, []⟩
            | some (PyValue.str relS) =>
              .ok ⟨nmS, ver, bld, osS, cl, PyValue.str relS, []⟩
            | some r =>
              .error (.typeError
                ("'RELEASE' must be <class 'str'> (got " ++ pyTypeName r ++ ")"))
          | c =>
            .error (.typeError
              ("'COMPONENTS' must be <class 'list'> (got " ++ pyTypeName c ++ ")"))
        | o =>
          .error (.typeError
            ("'OS' must be <class 'str'> (got " ++ pyTypeName o ++ ")"))
      else
        .error (.valueError
          ("'BUILD' must match regex '^[0-9]+$' ('" ++ bld ++ "' doesn't)"))
    else
      .error (.valueError
        ("'VERSION' must match regex '^[0-9]+\\.[0-9]+\\.[0-9]+$' ('"
          ++ ver ++ "' doesn't)"))
  | n =>
    .error (.typeError
      ("'NAME' must be <class 'str'> (got " ++ pyTypeName n ++ ")"))

/-- `cls(**data)` for `ReleaseInfoContentScheme`: Python keyword
binding first (an unexpected keyword or a missing required argument
raises `TypeError` before the body runs), then the generated
constructor body `releaseInfoInit`.  `RELEASE` is the only parameter
with a default (`None`). -/
def mkReleaseInfo (kvs : List (String × PyValue)) : Except PyError ReleaseInfo :=
  if !kvs.all (fun kv => declaredFields.contains kv.1) then
    .error (.typeError "__init__() got an unexpected keyword argument")
  else
    match lookupKey "NAME" kvs, lookupKey "VERSION" kvs, lookupKey "BUILD" kvs,
        lookupKey "OS" kvs, lookupKey "COMPONENTS" kvs with
    | some nm, some ver, some bld, some os, some comps =>
      releaseInfoInit nm ver bld os comps (lookupKey "RELEASE" kvs)
    | _, _, _, _, _ =>
      .error (.typeError "__init__() missing required positional arguments")

/-- `cls(*data)` for `ReleaseInfoContentScheme`: positional binding of
the six parameters, `RELEASE` defaulting to `None`; wrong arity raises
`TypeError`. -/
def mkReleaseInfoPositional (xs : List PyValue) : Except PyError ReleaseInfo :=
  match xs with
  | [nm, ver, bld, os, comps] => releaseInfoInit nm ver bld os comps Option.none
  | [nm, ver, bld, os, comps, rel] =>
    releaseInfoInit nm ver bld os comps (some rel)
  | _ => .error (.typeError "__init__() takes 6 positional arguments")

/-- `FileContentScheme.from_args(data)` instantiated at
`ReleaseInfoContentScheme`.  For a dict: pop every undeclared key out
of `data` into `unexpected_attrs`, construct from what is left, attach
the collected pairs.  For a list: positional construction with empty
`unexpected_attrs`.  Anything else raises
`ValidationError("Unexpected top-level content type ...")`.
The second component of the result is the final state of the (mutated)
input `data`. -/
def releaseInfoFromArgs (data : PyValue) :
    Except PyError ReleaseInfo × PyValue :=
  match data with
  | .dict kvs =>
    let r := popAll (undeclaredKeys kvs) kvs
    match mkReleaseInfo r.2 with
    | .ok obj => (.ok { obj with unexpectedAttrs := r.1 }, .dict r.2)
    | .error e => (.error e, .dict r.2)
  | .list xs =>
    match mkReleaseInfoPositional xs with
    | .ok obj => (.ok obj, .list xs)
    | .error e => (.error e, .list xs)
  | d =>
    (.error (.validationError
      ("Unexpected top-level content type: '" ++ pyTypeName d ++ "'")), d)

/-- The closed set of `FileContentScheme` subclasses in the source:
`ReleaseInfoContentScheme` is the only one. -/
inductive SchemeType where
  | releaseInfo
deriving DecidableEq, Repr

/-- `scheme.from_args(content)` dispatched on the scheme class held by
a `ContentFileValidator`. -/
def schemeFromArgs (st : SchemeType) (data : PyValue) :
    Except PyError ReleaseInfo × PyValue :=
  match st with
  | .releaseInfo => releaseInfoFromArgs data

/-- The attributes of `ContentFileValidator`: a `FileContentScheme`
subclass and a content type (default `ContentType.YAML`). -/
structure ContentFileV where
  scheme : SchemeType
  contentType : ContentType
deriving DecidableEq, Repr

/-- `ContentFileValidator.validate(path)`:
the first `try` block (loader lookup and `loader(path)`) wraps any
exception into `ValidationError("File content validation is failed:
...")`; the second `try` around `self.scheme.from_args(content)`
catches only `TypeError`, wrapping it the same way — every other
exception from `from_args` propagates unchanged. -/
def contentValidate (c : ContentFileV) (fs : FileSystem) (p : FsPath) :
    Except PyError Unit :=
  match loadContent fs p c.contentType with
  | .error e =>
    .error (.validationError ("File content validation is failed: " ++ e))
  | .ok content =>
    match (schemeFromArgs c.scheme content).1 with
    | .error (.typeError m) =>
      .error (.validationError ("File content validation is failed: " ++ m))
    | .error e => .error e
    | .ok _ => .ok ()

/-- The closed set of `PathValidator` variants in the source.
`FileValidator.content_validator` has `init=False`/`default=None` and
is only ever set (by `ReleaseInfoValidator.__attrs_post_init__`) to a
`ContentFileValidator`, so it is modelled as `Option ContentFileV`.
Scheme dictionaries map relative paths to child validators in
insertion order.  `HashSumValidator` extends `FileValidator` with an
expected digest (already converted to bytes by its `converter`; the
`instance_of((str, bytes, bytearray))` check makes a `None` hash sum
unconstructible) and a hash type. -/
inductive ValidatorT where
  | fileV (required : Bool) (contentValidator : Option ContentFileV)
  | dirV (filesScheme : Option (List (FsPath × ValidatorT))) (required : Bool)
  | fileSchemeV (scheme : Option (List (FsPath × ValidatorT)))
  | hashSumV (required : Bool) (hashSum : List Nat) (hashType : HashType)
  | contentFileV (c : ContentFileV)

/-- The existence/kind part of `FileValidator.validate(path)` shared
with `HashSumValidator.validate` through `super().validate(path)`:
missing path → `ValidationError` iff `required`, existing non-file →
`ValidationError`. -/
def fileValidateBasic (required : Bool) (fs : FileSystem) (p : FsPath) :
    Except PyError Unit :=
  if fs.entry p = .missing then
    if required then
      .error (.validationError ("File '" ++ pathStr p ++ "' should exist."))
    else .ok ()
  else if fs.entry p ≠ .file then
    .error (.validationError ("'" ++ pathStr p ++ "' is not a regular file."))
  else .ok ()

/-- `HashSumValidator.validate(path)` after the inherited
`super().validate(path)` succeeded: `utils.calc_hash` then
`hmac.compare_digest` of the computed digest against `hash_sum`
(constant-time in Python, plain byte equality observationally). -/
def hashCheck (hs : List Nat) (ht : HashType) (fs : FileSystem) (p : FsPath) :
    Except PyError Unit :=
  match calc_hash fs p ht with
  | .error e => .error e
  | .ok d =>
    if d = hs then .ok ()
    else
      .error (.validationError
        ("Hash sum of file '" ++ pathStr p ++ "': '" ++ bytesHex d
          ++ "' mismatches the provided one '" ++ bytesHex hs ++ "'"))

/-- Truthiness of the optional scheme dictionary in
`if self.files_scheme:` — `None` and the empty dict are both falsy. -/
def schemeTruthy : Option (List (FsPath × ValidatorT)) → Bool
  | Option.none => false
  | some l => !l.isEmpty

mutual

/-- `validate(path)` of each `PathValidator` variant, dispatched on the
variant.  `FileSchemeValidator.validate` iterates
`self.scheme.items()` without a `None` guard: with the default
`scheme=None` this is `None.items()`, an `AttributeError`. -/
def validate (v : ValidatorT) (fs : FileSystem) (p : FsPath) :
    Except PyError Unit :=
  match v with
  | .fileV required cv =>
    (fileValidateBasic required fs p).bind fun _ =>
      if fs.entry p = .missing then .ok ()
      else
        match cv with
        | Option.none => .ok ()
        | some c => contentValidate c fs p
  | .dirV fsch required =>
    if fs.entry p = .missing then
      if required then
        .error (.validationError ("File '" ++ pathStr p ++ "' should exist."))
      else .ok ()
    else if fs.entry p ≠ .dir then
      .error (.validationError ("'" ++ pathStr p ++ "' is not a directory"))
    else if schemeTruthy fsch then
      match fsch with
      | some items => validateItems items fs p
      | Option.none => .ok ()
    else .ok ()
  | .fileSchemeV Option.none =>
    .error (.attributeError "'NoneType' object has no attribute 'items'")
  | .fileSchemeV (some items) => validateItems items fs p
  | .hashSumV required hs ht =>
    (fileValidateBasic required fs p).bind fun _ => hashCheck hs ht fs p
  | .contentFileV c => contentValidate c fs p

/-- The `for sub_path, validator in scheme.items(): validator.validate
(path / sub_path)` loop shared by `DirValidator` and
`FileSchemeValidator`: children in insertion order, a raised failure
aborts the loop. -/
def validateItems (items : List (FsPath × ValidatorT)) (fs : FileSystem)
    (p : FsPath) : Except PyError Unit :=
  match items with
  | [] => .ok ()
  | (sub, v) :: rest =>
    (validate v fs (p ++ sub)).bind fun _ => validateItems rest fs p

end

/-! ### Specification-side predicates (for refinement statements)

These follow the spec's words, to be compared with the regex matchers
translated from the source. -/

/-- A nonempty run of digits. -/
def DigitRun (d : List Char) : Prop := d ≠ [] ∧ ∀ c ∈ d, c.isDigit = true

/-- Spec wording for the VERSION constraint: "three dot-separated runs
of digits". -/
def SpecVersionTriple (cs : List Char) : Prop :=
  ∃ a b c, DigitRun a ∧ DigitRun b ∧ DigitRun c ∧
    cs = a ++ '.' :: (b ++ '.' :: c)

/-- Spec wording for the BUILD constraint: "one or more digits". -/
def SpecBuildNumber (cs : List Char) : Prop :=
  cs ≠ [] ∧ ∀ c ∈ cs, c.isDigit = true

/-! ### Remaining definitions: observations and concrete fixtures -/

/-- The keys of a dictionary, in insertion order. -/
def dictKeys (kvs : List (String × PyValue)) : List String :=
  kvs.map Prod.fst

/-- Did a scheme construction succeed (no exception)? -/
def exceptOk : Except PyError ReleaseInfo → Bool
  | .ok _ => true
  | .error _ => false

/-- Does a validate call observe the contract "success or exactly one
`ValidationError`"?  `true` for success and for a raised
`ValidationError`; `false` when any other exception escapes. -/
def singleFailureOutcome : Except PyError Unit → Bool
  | .ok _ => true
  | .error (.validationError _) => true
  | .error _ => false

/-- A release-info dictionary with the given `VERSION` and `BUILD`
values and fixed valid remaining fields. -/
def relFields (v bld : String) : List (String × PyValue) :=
  [("NAME", .str "x"), ("VERSION", .str v), ("BUILD", .str bld),
    ("OS", .str "linux"), ("COMPONENTS", .list [])]

/-- The spec's end-to-end release-info content, `VERSION: "2.0.1"`. -/
def goodKvs : List (String × PyValue) :=
  [("NAME", .str "x"), ("VERSION", .str "2.0.1"), ("BUILD", .str "15"),
    ("OS", .str "linux"), ("COMPONENTS", .list [.str "a", .str "b"])]

/-- The same content with `VERSION: "2.0"`. -/
def badKvs : List (String × PyValue) :=
  [("NAME", .str "x"), ("VERSION", .str "2.0"), ("BUILD", .str "15"),
    ("OS", .str "linux"), ("COMPONENTS", .list [.str "a", .str "b"])]

/-- A concrete filesystem: a directory at `d`, regular files at `f`,
`good`, `bad` and `hash`, nothing anywhere else.  The file at `good`
parses to `goodKvs`, the one at `bad` to `badKvs`; the digest of
`hash` is `[1, 2]` under every algorithm, all other digests `[9]`. -/
def fsDemo : FileSystem where
  entry p :=
    if p = ["d"] then .dir
    else if p = ["f"] ∨ p = ["good"] ∨ p = ["bad"] ∨ p = ["hash"] then .file
    else .missing
  digestOf p _ := if p = ["hash"] then [1, 2] else [9]
  parseContent p _ :=
    if p = ["good"] then .ok (.dict goodKvs)
    else if p = ["bad"] then .ok (.dict badKvs)
    else .error "could not determine a constructor for the tag"

/-- The `ContentFileValidator(scheme=ReleaseInfoContentScheme,
content_type=ContentType.YAML)` instance built by
`ReleaseInfoValidator`. -/
def relCFV : ContentFileV := ⟨.releaseInfo, .yaml⟩

/-- The `ValueError` message attrs raises for `VERSION: "2.0"`. -/
def verMismatchMsg : String :=
  "'VERSION' must match regex '^[0-9]+\\.[0-9]+\\.[0-9]+$' ('2.0' doesn't)"

/-- The `AttributeError` message of `None.items()`. -/
def noneItemsMsg : String := "'NoneType' object has no attribute 'items'"

/-- A mapping with an undeclared key and no `VERSION`. -/
def demoNoVersion : List (String × PyValue) :=
  [("NAME", .str "x"), ("EXTRA", .int 1)]

/-- A full valid release-info mapping plus one undeclared key. -/
def demoExtraKvs : List (String × PyValue) :=
  [("NAME", .str "x"), ("VERSION", .str "2.0.1"), ("BUILD", .str "15"),
    ("OS", .str "linux"), ("COMPONENTS", .list []), ("EXTRA", .int 1)]

/-! ### Matcher lemmas -/

theorem dropWhile_head_not (p : Char → Bool) (l : List Char) (c : Char)
    (r : List Char) (h : l.dropWhile p = c :: r) : p c = false := by
  induction l with
  | nil => simp at h
  | cons a l ih =>
    rw [List.dropWhile_cons] at h
    by_cases hp : p a = true
    · rw [if_pos hp] at h
      exact ih h
    · rw [if_neg hp] at h
      cases h
      simpa using hp

theorem spanDigits_append (d rest : List Char)
    (hd : ∀ c ∈ d, isDigitChar c = true)
    (hr : ∀ c r', rest = c :: r' → isDigitChar c = false) :
    (d ++ rest).takeWhile isDigitChar = d ∧
      (d ++ rest).dropWhile isDigitChar = rest := by
  induction d with
  | nil =>
    cases rest with
    | nil => simp
    | cons c r' =>
      have hc := hr c r' rfl
      simp [List.takeWhile_cons, List.dropWhile_cons, hc]
  | cons a d' ih =>
    have ha : isDigitChar a = true := hd a (List.mem_cons_self a d')
    have ih' := ih (fun c hc => hd c (List.mem_cons_of_mem a hc))
    simp [List.takeWhile_cons, List.dropWhile_cons, ha, ih'.1, ih'.2]

theorem matchDigitsPlus_some (cs r : List Char)
    (h : matchDigitsPlus cs = some r) :
    ∃ d, d ≠ [] ∧ (∀ c ∈ d, isDigitChar c = true) ∧ cs = d ++ r ∧
      ∀ c r', r = c :: r' → isDigitChar c = false := by
  unfold matchDigitsPlus spanDigits at h
  split at h
  · cases h
  · rename_i c1 d1 r0 heq
    rw [Prod.mk.injEq] at heq
    rw [Option.some.injEq] at h
    subst h
    refine ⟨c1 :: d1, by simp, ?_, ?_, ?_⟩
    · intro c hc
      exact List.mem_takeWhile_imp (by rw [heq.1]; exact hc)
    · rw [← heq.1, ← heq.2]
      exact (List.takeWhile_append_dropWhile isDigitChar cs).symm
    · intro c r' hrr
      exact dropWhile_head_not isDigitChar cs c r' (by rw [heq.2]; exact hrr)

theorem matchDigitsPlus_of (d r : List Char) (hne : d ≠ [])
    (hd : ∀ c ∈ d, isDigitChar c = true)
    (hr : ∀ c r', r = c :: r' → isDigitChar c = false) :
    matchDigitsPlus (d ++ r) = some r := by
  have hs := spanDigits_append d r hd hr
  unfold matchDigitsPlus spanDigits
  rw [hs.1, hs.2]
  cases d with
  | nil => exact absurd rfl hne
  | cons a d' => rfl

theorem stripDot_some (r r' : List Char) (h : stripDot r = some r') :
    r = '.' :: r' := by
  cases r with
  | nil => simp [stripDot] at h
  | cons c rest =>
    rw [show stripDot (c :: rest)
        = if c = '.' then some rest else Option.none from rfl] at h
    by_cases hc : c = '.'
    · rw [if_pos hc] at h
      rw [Option.some.injEq] at h
      rw [hc, h]
    · rw [if_neg hc] at h
      cases h

theorem versionFullmatch_iff (cs : List Char) :
    versionFullmatch cs = true ↔ SpecVersionTriple cs := by
  constructor
  · intro h
    unfold versionFullmatch at h
    rcases e1 : matchDigitsPlus cs with _ | r1 <;>
      rw [e1] at h <;>
      simp only [Option.none_bind, Option.some_bind] at h
    · cases h
    rcases e2 : stripDot r1 with _ | r2 <;>
      rw [e2] at h <;>
      simp only [Option.none_bind, Option.some_bind] at h
    · cases h
    rcases e3 : matchDigitsPlus r2 with _ | r3 <;>
      rw [e3] at h <;>
      simp only [Option.none_bind, Option.some_bind] at h
    · cases h
    rcases e4 : stripDot r3 with _ | r4 <;>
      rw [e4] at h <;>
      simp only [Option.none_bind, Option.some_bind] at h
    · cases h
    rcases e5 : matchDigitsPlus r4 with _ | r5 <;> rw [e5] at h
    · cases h
    have hr5 : r5 = [] := by
      cases r5 with
      | nil => rfl
      | cons x xs => simp at h
    subst hr5
    obtain ⟨a, hane, had, hacs, -⟩ := matchDigitsPlus_some cs r1 e1
    have hr1 := stripDot_some r1 r2 e2
    obtain ⟨b, hbne, hbd, hbcs, -⟩ := matchDigitsPlus_some r2 r3 e3
    have hr3 := stripDot_some r3 r4 e4
    obtain ⟨c, hcne, hcd, hccs, -⟩ := matchDigitsPlus_some r4 [] e5
    refine ⟨a, b, c, ⟨hane, had⟩, ⟨hbne, hbd⟩, ⟨hcne, hcd⟩, ?_⟩
    rw [hacs, hr1, hbcs, hr3, hccs]
    simp
  · rintro ⟨a, b, c, ⟨hane, had⟩, ⟨hbne, hbd⟩, ⟨hcne, hcd⟩, rfl⟩
    have h1 : matchDigitsPlus (a ++ '.' :: (b ++ '.' :: c)) =
        some ('.' :: (b ++ '.' :: c)) :=
      matchDigitsPlus_of a _ hane had
        (fun ch r' hr => by cases hr; rfl)
    have h2 : stripDot ('.' :: (b ++ '.' :: c)) = some (b ++ '.' :: c) := rfl
    have h3 : matchDigitsPlus (b ++ '.' :: c) = some ('.' :: c) :=
      matchDigitsPlus_of b _ hbne hbd (fun ch r' hr => by cases hr; rfl)
    have h4 : stripDot ('.' :: c) = some c := rfl
    have h5 : matchDigitsPlus c = some [] := by
      have := matchDigitsPlus_of c [] hcne hcd (fun ch r' hr => by cases hr)
      simpa using this
    unfold versionFullmatch
    rw [h1]
    simp only [Option.some_bind]
    rw [h2]
    simp only [Option.some_bind]
    rw [h3]
    simp only [Option.some_bind]
    rw [h4]
    simp only [Option.some_bind]
    rw [h5]

/-! ### Dictionary lemmas for `from_args` -/

theorem lookupKey_eq_some_of_mem (k : String) (v : PyValue)
    (kvs : List (String × PyValue)) (hnd : (dictKeys kvs).Nodup)
    (hm : (k, v) ∈ kvs) : lookupKey k kvs = some v := by
  induction kvs with
  | nil => cases hm
  | cons kv rest ih =>
    rw [dictKeys, List.map_cons, List.nodup_cons] at hnd
    rcases List.mem_cons.1 hm with h | h
    · subst h
      simp [lookupKey, List.find?_cons]
    · have hk : kv.1 ≠ k := by
        intro he
        exact hnd.1 (he ▸ (List.mem_map.2 ⟨(k, v), h, rfl⟩))
      unfold lookupKey
      rw [List.find?_cons]
      have : (kv.1 == k) = false := by
        simp [hk]
      rw [this]
      exact ih hnd.2 h

theorem mem_of_lookupKey (k : String) (v : PyValue)
    (kvs : List (String × PyValue)) (h : lookupKey k kvs = some v) :
    (k, v) ∈ kvs := by
  unfold lookupKey at h
  rcases hf : kvs.find? (fun kv => kv.1 == k) with _ | kv0 <;> rw [hf] at h
  · cases h
  · rw [Option.map_some', Option.some.injEq] at h
    have hm := List.mem_of_find?_eq_some hf
    have hp := List.find?_some hf
    have : kv0.1 = k := by simpa using hp
    have : kv0 = (k, v) := by
      cases kv0
      simp_all
    rw [← this]
    exact hm

theorem lookupKey_eq_none (k : String) (kvs : List (String × PyValue))
    (h : k ∉ dictKeys kvs) : lookupKey k kvs = Option.none := by
  unfold lookupKey
  rw [List.find?_eq_none.2]
  · rfl
  · intro kv hkv
    simp only [beq_iff_eq]
    intro he
    exact h (List.mem_map.2 ⟨kv, hkv, he⟩)

theorem eraseKey_sublist (k : String) (kvs : List (String × PyValue)) :
    List.Sublist (eraseKey k kvs) kvs :=
  List.filter_sublist kvs

theorem dictKeys_eraseKey_nodup (k : String) (kvs : List (String × PyValue))
    (h : (dictKeys kvs).Nodup) : (dictKeys (eraseKey k kvs)).Nodup :=
  ((eraseKey_sublist k kvs).map Prod.fst).nodup h

theorem mem_eraseKey (k : String) (kv : String × PyValue)
    (kvs : List (String × PyValue)) :
    kv ∈ eraseKey k kvs ↔ kv ∈ kvs ∧ kv.1 ≠ k := by
  unfold eraseKey
  rw [List.mem_filter]
  simp [bne]

/-- The result of the pop loop: the remaining dictionary is the input
filtered down to the keys outside `ks`, and the collected pairs are
exactly the input pairs whose key is in `ks`. -/
theorem popAll_spec (ks : List String) (data : List (String × PyValue))
    (hnd : (dictKeys data).Nodup) (hknd : ks.Nodup)
    (hsub : ∀ k ∈ ks, ∃ v, (k, v) ∈ data) :
    (popAll ks data).2 = data.filter (fun kv => decide (kv.1 ∉ ks)) ∧
      ∀ kv, kv ∈ (popAll ks data).1 ↔ kv ∈ data ∧ kv.1 ∈ ks := by
  induction ks generalizing data with
  | nil =>
    constructor
    · rw [show (popAll [] data).2 = data from rfl]
      rw [List.filter_eq_self.2]
      intro kv _
      simp
    · intro kv
      rw [show (popAll [] data).1 = [] from rfl]
      simp
  | cons k ks' ih =>
    obtain ⟨v, hv⟩ := hsub k (List.mem_cons_self k ks')
    have hlk : lookupKey k data = some v :=
      lookupKey_eq_some_of_mem k v data hnd hv
    rw [List.nodup_cons] at hknd
    have hnd' := dictKeys_eraseKey_nodup k data hnd
    have hsub' : ∀ k' ∈ ks', ∃ v', (k', v') ∈ eraseKey k data := by
      intro k' hk'
      obtain ⟨v', hv'⟩ := hsub k' (List.mem_cons_of_mem k hk')
      refine ⟨v', (mem_eraseKey k (k', v') data).2 ⟨hv', ?_⟩⟩
      intro he
      exact hknd.1 (he ▸ hk')
    have ih' := ih (eraseKey k data) hnd' hknd.2 hsub'
    have hstep : popAll (k :: ks') data =
        ((k, v) :: (popAll ks' (eraseKey k data)).1,
          (popAll ks' (eraseKey k data)).2) := by
      rw [show popAll (k :: ks') data = (match lookupKey k data with
        | some v =>
          ((k, v) :: (popAll ks' (eraseKey k data)).1,
            (popAll ks' (eraseKey k data)).2)
        | Option.none => popAll ks' data) from rfl]
      rw [hlk]
    constructor
    · rw [hstep]
      rw [show ((k, v) :: (popAll ks' (eraseKey k data)).1,
            (popAll ks' (eraseKey k data)).2).2
          = (popAll ks' (eraseKey k data)).2 from rfl]
      rw [ih'.1]
      unfold eraseKey
      rw [List.filter_filter]
      apply List.filter_congr
      intro kv _
      simp only [List.mem_cons, decide_not, bne]
      by_cases h1 : kv.1 = k <;> by_cases h2 : kv.1 ∈ ks' <;>
        simp [h1, h2]
    · intro kv
      rw [hstep]
      rw [show ((k, v) :: (popAll ks' (eraseKey k data)).1,
            (popAll ks' (eraseKey k data)).2).1
          = (k, v) :: (popAll ks' (eraseKey k data)).1 from rfl]
      rw [List.mem_cons, ih'.2 kv, mem_eraseKey]
      constructor
      · rintro (rfl | ⟨⟨hm, -⟩, hk⟩)
        · exact ⟨hv, List.mem_cons_self k ks'⟩
        · exact ⟨hm, List.mem_cons_of_mem k hk⟩
      · rintro ⟨hm, hk⟩
        rcases List.mem_cons.1 hk with he | hk'
        · left
          have : lookupKey kv.1 data = some kv.2 := by
            apply lookupKey_eq_some_of_mem kv.1 kv.2 data hnd
            cases kv
            exact hm
          rw [he] at this
          rw [hlk] at this
          rw [Option.some.injEq] at this
          cases kv
          simp_all
        · right
          refine ⟨⟨hm, ?_⟩, hk'⟩
          intro he
          exact hknd.1 (he ▸ hk')

/-- Every successfully constructed scheme instance starts with an
empty `unexpected_attrs` dictionary (it is attached afterwards by
`from_args`). -/
theorem releaseInfoInit_unexpected (nm v b os comps : PyValue)
    (rel : Option PyValue) (obj : ReleaseInfo)
    (h : releaseInfoInit nm v b os comps rel = .ok obj) :
    obj.unexpectedAttrs = [] := by
  simp only [releaseInfoInit] at h
  repeat' split at h
  all_goals cases h
  all_goals rfl

theorem mkReleaseInfo_unexpected (kvs : List (String × PyValue))
    (obj : ReleaseInfo) (h : mkReleaseInfo kvs = .ok obj) :
    obj.unexpectedAttrs = [] := by
  unfold mkReleaseInfo at h
  split at h
  · cases h
  · split at h
    · exact releaseInfoInit_unexpected _ _ _ _ _ _ _ h
    · cases h

/-- A mapping without a `VERSION` key makes `cls(**data)` raise
`TypeError` (missing required argument). -/
theorem mkReleaseInfo_missing_version (kvs : List (String × PyValue))
    (h : "VERSION" ∉ dictKeys kvs) :
    ∃ m, mkReleaseInfo kvs = .error (.typeError m) := by
  have hver : lookupKey "VERSION" kvs = Option.none :=
    lookupKey_eq_none "VERSION" kvs h
  unfold mkReleaseInfo
  by_cases hall : (!kvs.all fun kv => declaredFields.contains kv.1) = true
  · rw [if_pos hall]
    exact ⟨_, rfl⟩
  · rw [if_neg hall]
    rcases l1 : lookupKey "NAME" kvs with _ | nm <;>
      rcases l3 : lookupKey "BUILD" kvs with _ | bld <;>
      rcases l4 : lookupKey "OS" kvs with _ | os <;>
      rcases l5 : lookupKey "COMPONENTS" kvs with _ | comps <;>
      rw [hver] <;>
      exact ⟨_, rfl⟩

/-- Characterization of the pop loop of `from_args` on a mapping: the
dictionary that reaches `cls(**data)` (and is left in the caller's
hands) is the input filtered to the declared keys, and the collected
unexpected pairs are exactly the undeclared input pairs. -/
theorem fromArgs_dict_parts (kvs : List (String × PyValue))
    (hnd : (dictKeys kvs).Nodup) :
    (popAll (undeclaredKeys kvs) kvs).2
      = kvs.filter (fun kv => decide (kv.1 ∈ declaredFields)) ∧
    ∀ kv, kv ∈ (popAll (undeclaredKeys kvs) kvs).1
      ↔ kv ∈ kvs ∧ kv.1 ∉ declaredFields := by
  have hknd : (undeclaredKeys kvs).Nodup := by
    unfold undeclaredKeys
    unfold dictKeys at hnd
    exact hnd.filter _
  have hsub : ∀ k ∈ undeclaredKeys kvs, ∃ v, (k, v) ∈ kvs := by
    intro k hk
    unfold undeclaredKeys at hk
    have hk' : k ∈ kvs.map Prod.fst := (List.mem_filter.1 hk).1
    obtain ⟨kv, hkv, he⟩ := List.mem_map.1 hk'
    exact ⟨kv.2, by cases kv; cases he; exact hkv⟩
  have hmemU : ∀ k, k ∈ undeclaredKeys kvs
      ↔ k ∈ dictKeys kvs ∧ k ∉ declaredFields := by
    intro k
    unfold undeclaredKeys dictKeys
    rw [List.mem_filter]
    simp
  obtain ⟨h2, h1⟩ := popAll_spec (undeclaredKeys kvs) kvs hnd hknd hsub
  constructor
  · rw [h2]
    apply List.filter_congr
    intro kv hkv
    have hk : kv.1 ∈ dictKeys kvs := by
      unfold dictKeys
      exact List.mem_map.2 ⟨kv, hkv, rfl⟩
    rw [decide_eq_decide]
    rw [hmemU kv.1]
    simp [hk]
  · intro kv
    rw [h1 kv]
    constructor
    · rintro ⟨hm, hk⟩
      exact ⟨hm, ((hmemU kv.1).1 hk).2⟩
    · rintro ⟨hm, hnd2⟩
      refine ⟨hm, (hmemU kv.1).2 ⟨?_, hnd2⟩⟩
      unfold dictKeys
      exact List.mem_map.2 ⟨kv, hm, rfl⟩

/-- A prefix of children that all validate cleanly does not affect the
outcome of the iteration. -/
theorem validateItems_skip_ok_front (fs : FileSystem) (p : FsPath)
    (pre rest : List (FsPath × ValidatorT))
    (h : ∀ kv ∈ pre, validate kv.2 fs (p ++ kv.1) = .ok ()) :
    validateItems (pre ++ rest) fs p = validateItems rest fs p := by
  induction pre with
  | nil => rfl
  | cons kv pre' ih =>
    obtain ⟨sub, v⟩ := kv
    have hh := h (sub, v) (List.mem_cons_self _ _)
    have ih' := ih (fun kv hkv => h kv (List.mem_cons_of_mem _ hkv))
    rw [List.cons_append]
    rw [validateItems.eq_def]
    simp only []
    rw [hh]
    simpa [Except.bind] using ih'

theorem buildFullmatch_iff (cs : List Char) :
    buildFullmatch cs = true ↔ SpecBuildNumber cs := by
  constructor
  · intro h
    unfold buildFullmatch at h
    rcases e1 : matchDigitsPlus cs with _ | r <;> rw [e1] at h
    · simp at h
    have hr : r = [] := by
      cases r with
      | nil => rfl
      | cons x xs => simp at h
    subst hr
    obtain ⟨d, hdne, hdd, hdcs, -⟩ := matchDigitsPlus_some cs [] e1
    rw [hdcs]
    simp only [List.append_nil]
    exact ⟨hdne, hdd⟩
  · rintro ⟨hne, hd⟩
    have h1 : matchDigitsPlus cs = some [] := by
      have := matchDigitsPlus_of cs [] hne hd (fun ch r' hr => by cases hr)
      simpa using this
    unfold buildFullmatch
    rw [h1]

/-! ### Claim theorems -/

/-- C1: the claimed invariant — every variant, on every path, either
succeeds or raises exactly one ValidationError — is violated by the
code: `FileSchemeValidator` with its default `scheme=None` leaks an
`AttributeError`, `HashSumValidator` with `required=False` on a
missing path leaks a `FileNotFoundError` from `calc_hash`, and
`ContentFileValidator` leaks the attrs `ValueError` for a malformed
`VERSION` field. -/
theorem claim_C1_error_taxonomy_violated :
    validate (.fileSchemeV Option.none) fsDemo ["z"]
      = .error (.attributeError noneItemsMsg) ∧
    validate (.hashSumV false [1, 2] .md5) fsDemo ["z"]
      = .error (.fileNotFoundError "No such file or directory: 'z'") ∧
    singleFailureOutcome (validate (.fileSchemeV Option.none) fsDemo ["z"])
      = false ∧
    singleFailureOutcome (validate (.hashSumV false [1, 2] .md5) fsDemo ["z"])
      = false ∧
    singleFailureOutcome (validate (.contentFileV relCFV) fsDemo ["bad"])
      = false :=
  ⟨rfl, rfl, rfl, rfl, rfl⟩

/-- C2: release-info content with `VERSION: "2.0.1"` validates
successfully, but the same content with `VERSION: "2.0"` does not fail
with a wrapped ValidationError: the attrs `ValueError` raised by the
`matches_re` validator is not caught by the `except TypeError` clause
of `ContentFileValidator.validate` and escapes unwrapped. -/
theorem claim_C2_version_mismatch_escapes_unwrapped :
    validate (.contentFileV relCFV) fsDemo ["good"] = .ok () ∧
    validate (.contentFileV relCFV) fsDemo ["bad"]
      = .error (.valueError verMismatchMsg) ∧
    ∀ r, (PyError.valueError verMismatchMsg) ≠ .validationError r :=
  ⟨rfl, rfl, fun _ h => PyError.noConfusion h⟩

/-- C3: `HashSumValidator.validate` succeeds iff the path is a regular
file whose digest under the configured algorithm equals the configured
expected digest; on a directory it fails with a ValidationError (the
inherited not-a-regular-file check), not an unrelated error. -/
theorem claim_C3_hashsum_validate_iff (fs : FileSystem) (p : FsPath)
    (req : Bool) (hs : List Nat) (ht : HashType) :
    (validate (.hashSumV req hs ht) fs p = .ok ()
      ↔ fs.entry p = .file ∧ fs.digestOf p ht = hs) ∧
    (fs.entry p = .dir →
      validate (.hashSumV req hs ht) fs p
        = .error (.validationError
            ("'" ++ pathStr p ++ "' is not a regular file."))) := by
  simp only [validate.eq_def]
  constructor
  · cases he : fs.entry p
    · cases req <;>
        simp [fileValidateBasic, hashCheck, calc_hash, he, Except.bind]
    · by_cases hd : fs.digestOf p ht = hs <;>
        simp [fileValidateBasic, hashCheck, calc_hash, he, hd, Except.bind]
    · simp [fileValidateBasic, hashCheck, calc_hash, he, Except.bind]
  · intro he
    simp [fileValidateBasic, he, Except.bind]

theorem claim_C3_hashsum_validate_iff_witness :
    fsDemo.entry ["d"] = .dir ∧
    validate (.hashSumV true [1, 2] .md5) fsDemo ["d"]
      = .error (.validationError "'d' is not a regular file.") :=
  ⟨rfl, (claim_C3_hashsum_validate_iff fsDemo ["d"] true [1, 2] .md5).2 rfl⟩

/-- C4: both composite validators iterate the declared children in
insertion order against the root joined with each relative key, and
the first child failure is propagated as the whole result, whatever
the later children (`post` is arbitrary) would have done. -/
theorem claim_C4_composite_fail_fast (fs : FileSystem) (p : FsPath)
    (pre post : List (FsPath × ValidatorT)) (k : FsPath) (v : ValidatorT)
    (e : PyError) (req : Bool)
    (hdir : fs.entry p = .dir)
    (hpre : ∀ kv ∈ pre, validate kv.2 fs (p ++ kv.1) = .ok ())
    (hv : validate v fs (p ++ k) = .error e) :
    validate (.dirV (some (pre ++ (k, v) :: post)) req) fs p = .error e ∧
    validate (.fileSchemeV (some (pre ++ (k, v) :: post))) fs p = .error e := by
  have hitems : validateItems (pre ++ (k, v) :: post) fs p = .error e := by
    rw [validateItems_skip_ok_front fs p pre ((k, v) :: post) hpre]
    rw [validateItems.eq_def]
    simp only []
    rw [hv]
    rfl
  constructor
  · simp only [validate.eq_def]
    simp [hdir, schemeTruthy, hitems]
  · simp only [validate.eq_def]
    simp [hitems]

theorem claim_C4_composite_fail_fast_witness :
    fsDemo.entry ["d"] = .dir ∧
    (∀ kv ∈ [((["f0"] : FsPath), ValidatorT.fileV false Option.none)],
      validate kv.2 fsDemo (["d"] ++ kv.1) = .ok ()) ∧
    validate (.fileV true Option.none) fsDemo (["d"] ++ ["x"])
      = .error (.validationError "File 'd/x' should exist.") ∧
    validate (.dirV (some ([(["f0"], .fileV false Option.none)]
        ++ (["x"], .fileV true Option.none)
          :: [(["y"], .fileV true Option.none)])) true) fsDemo ["d"]
      = .error (.validationError "File 'd/x' should exist.") ∧
    validate (.fileSchemeV (some ([(["f0"], .fileV false Option.none)]
        ++ (["x"], .fileV true Option.none)
          :: [(["y"], .fileV true Option.none)]))) fsDemo ["d"]
      = .error (.validationError "File 'd/x' should exist.") := by
  have h1 : fsDemo.entry ["d"] = FsEntry.dir := rfl
  have h2 : ∀ kv ∈ [((["f0"] : FsPath), ValidatorT.fileV false Option.none)],
      validate kv.2 fsDemo (["d"] ++ kv.1) = .ok () := by
    intro kv hkv
    have : kv = ((["f0"] : FsPath), ValidatorT.fileV false Option.none) := by
      simpa using hkv
    subst this
    rfl
  have h3 : validate (.fileV true Option.none) fsDemo (["d"] ++ ["x"])
      = .error (.validationError "File 'd/x' should exist.") := rfl
  have main := claim_C4_composite_fail_fast fsDemo ["d"]
    [(["f0"], .fileV false Option.none)] [(["y"], .fileV true Option.none)]
    ["x"] (.fileV true Option.none) _ true h1 h2 h3
  exact ⟨h1, h2, h3, main.1, main.2⟩

/-- C7: on a nonexistent path, `FileValidator` with `required=False`
succeeds, and with `required=True` fails with the path-missing
ValidationError. -/
theorem claim_C7_missing_path (fs : FileSystem) (p : FsPath)
    (cv : Option ContentFileV) (h : fs.entry p = .missing) :
    validate (.fileV false cv) fs p = .ok () ∧
    validate (.fileV true cv) fs p
      = .error (.validationError
          ("File '" ++ pathStr p ++ "' should exist.")) := by
  simp only [validate.eq_def]
  constructor <;> simp [fileValidateBasic, h, Except.bind]

theorem claim_C7_missing_path_witness :
    fsDemo.entry ["z"] = .missing ∧
    validate (.fileV false Option.none) fsDemo ["z"] = .ok () ∧
    validate (.fileV true Option.none) fsDemo ["z"]
      = .error (.validationError "File 'z' should exist.") :=
  ⟨rfl, (claim_C7_missing_path fsDemo ["z"] Option.none rfl).1,
    (claim_C7_missing_path fsDemo ["z"] Option.none rfl).2⟩

/-- C8: `DirValidator.validate` on an existing regular file fails with
the wrong-path-kind ValidationError, for every scheme and for both
values of `required`. -/
theorem claim_C8_dir_validator_on_file (fs : FileSystem) (p : FsPath)
    (sch : Option (List (FsPath × ValidatorT))) (req : Bool)
    (h : fs.entry p = .file) :
    validate (.dirV sch req) fs p
      = .error (.validationError
          ("'" ++ pathStr p ++ "' is not a directory")) := by
  simp only [validate.eq_def]
  simp [h]

theorem claim_C8_dir_validator_on_file_witness :
    fsDemo.entry ["f"] = .file ∧
    validate (.dirV Option.none true) fsDemo ["f"]
      = .error (.validationError "'f' is not a directory") :=
  ⟨rfl, claim_C8_dir_validator_on_file fsDemo ["f"] Option.none true rfl⟩

/-- C9: `FileSchemeValidator` with its default `scheme=None` raises an
AttributeError (`None.items()`), which is not a ValidationError, on
every filesystem and path; `DirValidator` with `files_scheme=None`
succeeds on every existing directory. -/
theorem claim_C9_none_scheme_asymmetry (fs : FileSystem) (p : FsPath)
    (req : Bool) :
    validate (.fileSchemeV Option.none) fs p
      = .error (.attributeError noneItemsMsg) ∧
    (∀ r, (PyError.attributeError noneItemsMsg) ≠ .validationError r) ∧
    (fs.entry p = .dir → validate (.dirV Option.none req) fs p = .ok ()) := by
  refine ⟨rfl, fun _ h => PyError.noConfusion h, fun h => ?_⟩
  simp only [validate.eq_def]
  simp [schemeTruthy, h]

theorem claim_C9_none_scheme_asymmetry_witness :
    fsDemo.entry ["d"] = .dir ∧
    validate (.dirV Option.none false) fsDemo ["d"] = .ok () :=
  ⟨rfl, (claim_C9_none_scheme_asymmetry fsDemo ["d"] false).2.2 rfl⟩

/-- C5: `from_args` on a mapping constructs the scheme instance from
the declared-key subset of the input and preserves every undeclared
key-value pair as an unexpected attribute; a mapping without the
required `VERSION` field fails construction (TypeError from keyword
binding); an input that is neither a mapping nor a sequence raises the
unsupported-shape ValidationError. -/
theorem claim_C5_from_args_partition (kvs : List (String × PyValue))
    (hnd : (dictKeys kvs).Nodup) :
    (∀ obj, (releaseInfoFromArgs (.dict kvs)).1 = .ok obj →
      (∀ kv, kv ∈ obj.unexpectedAttrs ↔ kv ∈ kvs ∧ kv.1 ∉ declaredFields) ∧
      mkReleaseInfo (kvs.filter (fun kv => decide (kv.1 ∈ declaredFields)))
        = .ok { obj with unexpectedAttrs := [] }) ∧
    ("VERSION" ∉ dictKeys kvs →
      ∃ m, (releaseInfoFromArgs (.dict kvs)).1 = .error (.typeError m)) ∧
    (∀ d : PyValue, (∀ xs, d ≠ .list xs) → (∀ m, d ≠ .dict m) →
      (releaseInfoFromArgs d).1 = .error (.validationError
        ("Unexpected top-level content type: '" ++ pyTypeName d ++ "'"))) := by
  obtain ⟨hfin, hmem⟩ := fromArgs_dict_parts kvs hnd
  refine ⟨?_, ?_, ?_⟩
  · intro obj hobj
    simp only [releaseInfoFromArgs] at hobj
    rcases hmk : mkReleaseInfo (popAll (undeclaredKeys kvs) kvs).2
        with e | o <;> rw [hmk] at hobj
    · cases hobj
    · rw [Except.ok.injEq] at hobj
      have hue : o.unexpectedAttrs = [] := mkReleaseInfo_unexpected _ o hmk
      constructor
      · intro kv
        rw [← hobj]
        exact hmem kv
      · rw [← hfin, hmk, ← hobj]
        cases o
        simp only [] at hue
        rw [hue]
  · intro hver
    have hsubk : "VERSION" ∉ dictKeys (popAll (undeclaredKeys kvs) kvs).2 := by
      rw [hfin]
      intro hmem2
      unfold dictKeys at hmem2
      obtain ⟨kv, hkv, he⟩ := List.mem_map.1 hmem2
      have hkv' : kv ∈ kvs := List.mem_of_mem_filter hkv
      unfold dictKeys at hver
      exact hver (List.mem_map.2 ⟨kv, hkv', he⟩)
    obtain ⟨m, hm⟩ := mkReleaseInfo_missing_version _ hsubk
    refine ⟨m, ?_⟩
    simp only [releaseInfoFromArgs]
    rw [hm]
  · intro d hl hd2
    cases d with
    | str s => rfl
    | int n => rfl
    | none => rfl
    | list xs => exact absurd rfl (hl xs)
    | dict m => exact absurd rfl (hd2 m)

theorem claim_C5_from_args_partition_witness :
    (dictKeys demoNoVersion).Nodup ∧
    "VERSION" ∉ dictKeys demoNoVersion ∧
    (∃ m, (releaseInfoFromArgs (.dict demoNoVersion)).1
      = .error (.typeError m)) ∧
    (releaseInfoFromArgs (.str "oops")).1
      = .error (.validationError
          "Unexpected top-level content type: 'str'") :=
  ⟨by decide, by decide,
    (claim_C5_from_args_partition demoNoVersion (by decide)).2.1 (by decide),
    (claim_C5_from_args_partition demoNoVersion (by decide)).2.2 (.str "oops")
      (fun _ h => PyValue.noConfusion h) (fun _ h => PyValue.noConfusion h)⟩

/-- C6: release-info scheme construction accepts a `VERSION` string
exactly when it is three dot-separated runs of digits, and a `BUILD`
string exactly when it is one or more digits (the other fields held
fixed and valid). -/
theorem claim_C6_field_format_constraints (s b : String) :
    (exceptOk (mkReleaseInfo (relFields s "42")) = true
      ↔ SpecVersionTriple s.data) ∧
    (exceptOk (mkReleaseInfo (relFields "1.2.3" b)) = true
      ↔ SpecBuildNumber b.data) := by
  constructor
  · have h1 : mkReleaseInfo (relFields s "42")
        = releaseInfoInit (.str "x") (.str s) (.str "42") (.str "linux")
            (.list []) Option.none := rfl
    rw [h1]
    have key : exceptOk (releaseInfoInit (.str "x") (.str s) (.str "42")
        (.str "linux") (.list []) Option.none) = versionFullmatch s.data := by
      cases hvm : versionFullmatch s.data <;>
        simp [releaseInfoInit, pyStr, exceptOk, hvm,
          show buildFullmatch "42".data = true from rfl]
    rw [key]
    exact versionFullmatch_iff s.data
  · have h1 : mkReleaseInfo (relFields "1.2.3" b)
        = releaseInfoInit (.str "x") (.str "1.2.3") (.str b) (.str "linux")
            (.list []) Option.none := rfl
    rw [h1]
    have key : exceptOk (releaseInfoInit (.str "x") (.str "1.2.3") (.str b)
        (.str "linux") (.list []) Option.none) = buildFullmatch b.data := by
      cases hbm : buildFullmatch b.data <;>
        simp [releaseInfoInit, pyStr, exceptOk, hbm,
          show versionFullmatch "1.2.3".data = true from rfl]
    rw [key]
    exact buildFullmatch_iff b.data

/-- C10: `from_args` on a mapping mutates the caller's dictionary in
place: after the call the dictionary consists of exactly its declared
entries, in their original order and with their original values —
every undeclared key has been popped out. -/
theorem claim_C10_from_args_mutates_input (kvs : List (String × PyValue))
    (hnd : (dictKeys kvs).Nodup) :
    (releaseInfoFromArgs (.dict kvs)).2
      = .dict (kvs.filter (fun kv => decide (kv.1 ∈ declaredFields))) := by
  have hfin := (fromArgs_dict_parts kvs hnd).1
  simp only [releaseInfoFromArgs]
  rcases mkReleaseInfo (popAll (undeclaredKeys kvs) kvs).2
      with e | o <;> rw [hfin]

theorem claim_C10_from_args_mutates_input_witness :
    (dictKeys demoExtraKvs).Nodup ∧
    (releaseInfoFromArgs (.dict demoExtraKvs)).2
      = .dict (demoExtraKvs.filter (fun kv => decide (kv.1 ∈ declaredFields))) ∧
    (releaseInfoFromArgs (.dict demoExtraKvs)).2
      = .dict [("NAME", .str "x"), ("VERSION", .str "2.0.1"),
          ("BUILD", .str "15"), ("OS", .str "linux"),
          ("COMPONENTS", .list [])] :=
  ⟨by decide, claim_C10_from_args_mutates_input demoExtraKvs (by decide), rfl⟩

end CortxValidator
